import Mathlib

/-!
Verification of the qa-testing-portfolio repository: a shallow embedding of
the small functions and components defined in its exercise files, together
with theorems settling the specification's claims about them.

Sources embedded:
- src/daily-report/jan-8/exercises.test.tsx  (subtract, setAge, fetchUser,
  performLogin, Counter)
- src/daily-report/jan-9/page-objects/login.page.ts  (LoginPage)
- src/unnamed/part_001  (unit-test.test.ts, exercising calculateTotal)
- the repository's folder layout (dated daily folders)
-/

namespace QaPortfolio

/-! ## Arithmetic helpers from jan-8/exercises.test.tsx -/

/-- `const subtract = (a: number, b: number) => a - b;`
(exercises.test.tsx line 6). Numbers are integers in every exercise. -/
def subtract (a b : Int) : Int := a - b

/-- Modelled from the spec: `cart.ts` (the module defining `calculateTotal`,
described as "simple business logic (calculating cart totals)") is not among
the source files; the jan-7 documentation and unit test describe a cart-total
calculator multiplying a unit price by a quantity, so that
`calculateTotal(100000, 3) == 300000`. -/
def calculateTotal (price quantity : Int) : Int := price * quantity

/-! ## setAge: exception-raising validation (exercises.test.tsx lines 78-86)

```
const setAge = (age: number) => {
  if (age < 0) { throw new Error("Age cannot be negative!"); }
  if (age < 18) { throw new Error("You are not an adult yet!"); }
  return `Your age is ${age}`;
};
```
A thrown `Error` with message `m` is embedded as `Except.error m`. -/

def setAge (age : Int) : Except String String :=
  if age < 0 then Except.error "Age cannot be negative!"
  else if age < 18 then Except.error "You are not an adult yet!"
  else Except.ok ("Your age is " ++ toString age)

/-! ## fetchUser: async resolution/rejection (exercises.test.tsx lines 104-111)

```
const fetchUser = async (id: number) => {
  return new Promise((resolve, reject) => {
    setTimeout(() => {
      if (id === 1) resolve({ id, name: "Jason" });
      else reject(new Error("User not found"));
    }, 1000);
  });
};
```
A promise that resolves with `u` is `Except.ok u`; one that rejects with an
error of message `m` is `Except.error m`. The 1000 ms timer delay has no
value-level effect and is not modelled. -/

structure User where
  id : Int
  name : String
deriving Repr, DecidableEq

def fetchUser (id : Int) : Except String User :=
  if id = 1 then Except.ok { id := id, name := "Jason" }
  else Except.error "User not found"

/-! ## performLogin: call-forwarding (exercises.test.tsx lines 125-130)

```
const performLogin = (credentials, loginApi) => {
  loginApi(credentials.username, credentials.password);
};
```
The effectful callback `loginApi` is embedded as a function transforming a
call log (the list of argument pairs it has been invoked with); the body of
`performLogin` invokes it exactly as the source does. -/

structure Credentials where
  username : String
  password : String
deriving Repr, DecidableEq

/-- One recorded invocation of `loginApi`: its two string arguments. -/
abbrev ApiCall := String × String

def performLogin (credentials : Credentials)
    (loginApi : String → String → List ApiCall → List ApiCall)
    (log : List ApiCall) : List ApiCall :=
  loginApi credentials.username credentials.password log

/-- The canonical recording callback: appends the received arguments. -/
def recordingApi (u p : String) (log : List ApiCall) : List ApiCall :=
  log ++ [(u, p)]

/-! ## Counter component (exercises.test.tsx lines 144-152)

```
const Counter = () => {
  const [count, setCount] = useState(0);
  return (
    <div>
      <h1 data-testid="count-value">{count}</h1>
      <button onClick={() => setCount(count + 1)}>Increment</button>
    </div>
  );
};
```
The component's state is the `count` hook value; a click of the Increment
button runs `setCount(count + 1)`; the displayed count value is the text
content rendered from `{count}`. -/

structure CounterState where
  count : Int
deriving Repr, DecidableEq

/-- `useState(0)`: the initial render's state. -/
def counterInit : CounterState := { count := 0 }

/-- The Increment button's `onClick={() => setCount(count + 1)}`. -/
def counterClick (s : CounterState) : CounterState := { count := s.count + 1 }

/-- The text content of the `h1` with test id `count-value`: `{count}`. -/
def counterDisplay (s : CounterState) : String := toString s.count

/-! ## LoginPage page object (jan-9/page-objects/login.page.ts)

```
export class LoginPage {
  constructor(private readonly page: Page) {}
  async goto() { await this.page.goto("/sign-in"); }
  async login(email: string, pass: string) {
    await this.page.getByPlaceholder("you@example.com").fill(email);
    await this.page.getByPlaceholder("Your password").fill(pass);
    await this.page.getByRole("button", { name: "Sign In" }).click();
  }
  async verifyErrorIsVisible() {
    await expect(this.page.getByText(/Invalid/i)).toBeVisible();
  }
}
```
The Playwright `Page` is an opaque handle; each method is embedded as the
sequence of browser commands it issues against that handle, paired with the
(unmodified) object it leaves behind. -/

/-- An opaque Playwright page handle. -/
structure Page where
  handle : Nat
deriving Repr, DecidableEq

/-- One browser command issued through the Playwright API. -/
inductive BrowserAction where
  /-- `page.goto(path)` -/
  | gotoPath (path : String)
  /-- `page.getByPlaceholder(placeholder).fill(value)` -/
  | fillByPlaceholder (placeholder value : String)
  /-- `page.getByRole("button", { name }).click()` -/
  | clickButton (name : String)
  /-- `expect(page.getByText(/pattern/i)).toBeVisible()` -/
  | expectTextVisibleInsensitive (pattern : String)
deriving Repr, DecidableEq

structure LoginPage where
  page : Page
deriving Repr, DecidableEq

def LoginPage.goto (lp : LoginPage) : LoginPage × List BrowserAction :=
  (lp, [BrowserAction.gotoPath "/sign-in"])

def LoginPage.login (lp : LoginPage) (email pass : String) :
    LoginPage × List BrowserAction :=
  (lp, [BrowserAction.fillByPlaceholder "you@example.com" email,
        BrowserAction.fillByPlaceholder "Your password" pass,
        BrowserAction.clickButton "Sign In"])

def LoginPage.verifyErrorIsVisible (lp : LoginPage) :
    LoginPage × List BrowserAction :=
  (lp, [BrowserAction.expectTextVisibleInsensitive "Invalid"])

/-- The public interface of `LoginPage`: its three methods, each with the
arguments the source declares. -/
inductive LoginPageOp where
  | gotoOp : LoginPageOp
  | loginOp (email pass : String) : LoginPageOp
  | verifyErrorIsVisibleOp : LoginPageOp
deriving Repr, DecidableEq

/-- Dispatch an interface operation to the corresponding method. -/
def LoginPage.run (lp : LoginPage) : LoginPageOp → LoginPage × List BrowserAction
  | LoginPageOp.gotoOp => lp.goto
  | LoginPageOp.loginOp email pass => lp.login email pass
  | LoginPageOp.verifyErrorIsVisibleOp => lp.verifyErrorIsVisible

/-! ## Repository layout: dated daily folders -/

/-- A file of the repository, by name. -/
structure RepoFile where
  name : String
deriving Repr, DecidableEq

/-- A dated daily folder: its date key and the files it holds
(including files of its subdirectories, recorded by relative path). -/
structure DailyFolder where
  date : String
  files : List RepoFile
deriving Repr, DecidableEq

/-- A file is a Markdown documentation file when its name ends in ".md"
(checked on the name's character list: its last three characters, read in
reverse, are 'd', 'm', '.'). -/
def RepoFile.isMarkdownDoc (f : RepoFile) : Bool :=
  f.name.data.reverse.take 3 == ['d', 'm', '.']

/-- The dated daily folders of the repository and their files, as laid out
under daily-report/ (jan-7's script files are the ones its documentation
file names as siblings). -/
def dailyFolders : List DailyFolder :=
  [ { date := "jan-7",
      files := [{ name := "docs.md" }, { name := "cart.ts" },
                { name := "unit-test.test.ts" }] },
    { date := "jan-8",
      files := [{ name := "docs.md" }, { name := "exercises.test.tsx" }] },
    { date := "jan-9",
      files := [{ name := "docs.md" }, { name := "playwright-exercises.spec.ts" },
                { name := "page-objects/login.page.ts" }] } ]

/-- How many Markdown documentation files a folder holds. -/
def DailyFolder.docCount (d : DailyFolder) : Nat :=
  (d.files.filter RepoFile.isMarkdownDoc).length

/-! ## Theorems settling the claims -/

/-- C1: `setAge(-1)` throws an error whose message is
"Age cannot be negative!", and `setAge(20)` does not throw and returns the
string "Your age is 20". -/
theorem setAge_boundary_values :
    setAge (-1) = Except.error "Age cannot be negative!" ∧
    setAge 20 = Except.ok "Your age is 20" := by
  constructor <;> rfl

/-- C2: `calculateTotal` applied to the arguments 100000 and 3 returns
300000. -/
theorem calculateTotal_example : calculateTotal 100000 3 = 300000 := by
  rfl

/-- C3: `subtract(5, 2)` returns 3, and `subtract(2, 5)` returns -3. -/
theorem subtract_examples : subtract 5 2 = 3 ∧ subtract 2 5 = -3 := by
  constructor <;> rfl

/-- C4: the Counter component's displayed count value is "0" in its initial
state, and after exactly one click of its Increment button the displayed
count value is "1". -/
theorem counter_initial_and_after_click :
    counterDisplay counterInit = "0" ∧
    counterDisplay (counterClick counterInit) = "1" := by
  constructor <;> rfl

/-- C5: the LoginPage page object exposes exactly three actions: `goto`
navigates the wrapped page to the fixed path "/sign-in"; `login(email, pass)`
fills the two inputs identified by the placeholders "you@example.com" and
"Your password" and then clicks the "Sign In" button; `verifyErrorIsVisible`
asserts that the element with text matching /Invalid/i is visible. -/
theorem loginPage_interface (lp : LoginPage) (email pass : String) :
    (∀ op : LoginPageOp, op = LoginPageOp.gotoOp ∨
      (∃ e p, op = LoginPageOp.loginOp e p) ∨
      op = LoginPageOp.verifyErrorIsVisibleOp) ∧
    (lp.run LoginPageOp.gotoOp).2 = [BrowserAction.gotoPath "/sign-in"] ∧
    (lp.run (LoginPageOp.loginOp email pass)).2 =
      [BrowserAction.fillByPlaceholder "you@example.com" email,
       BrowserAction.fillByPlaceholder "Your password" pass,
       BrowserAction.clickButton "Sign In"] ∧
    (lp.run LoginPageOp.verifyErrorIsVisibleOp).2 =
      [BrowserAction.expectTextVisibleInsensitive "Invalid"] := by
  refine ⟨fun op => ?_, rfl, rfl, rfl⟩
  cases op with
  | gotoOp => exact Or.inl rfl
  | loginOp e p => exact Or.inr (Or.inl ⟨e, p, rfl⟩)
  | verifyErrorIsVisibleOp => exact Or.inr (Or.inr rfl)

/-- C6: every LoginPage operation (`goto`, `login`, `verifyErrorIsVisible`)
leaves the LoginPage object itself unchanged: its only field, the wrapped
page handle, is the same handle after any operation as before it, and the
class holds no other state (two LoginPage values with the same page handle
are equal). -/
theorem loginPage_frame (lp : LoginPage) (op : LoginPageOp) :
    ((lp.run op).1).page = lp.page ∧
    (∀ a b : LoginPage, a.page = b.page → a = b) := by
  constructor
  · cases op <;> rfl
  · intro a b h
    cases a
    cases b
    simp only at h
    rw [h]

/-- Witness for C6 at the concrete page handle 0 and the `goto` operation. -/
theorem loginPage_frame_witness :
    ((LoginPage.run { page := { handle := 0 } } LoginPageOp.gotoOp).1).page =
      ({ handle := 0 } : Page) ∧
    ({ page := { handle := 0 } } : LoginPage) =
      ({ page := { handle := 0 } } : LoginPage) :=
  ⟨(loginPage_frame { page := { handle := 0 } } LoginPageOp.gotoOp).1,
   (loginPage_frame { page := { handle := 0 } } LoginPageOp.gotoOp).2
     { page := { handle := 0 } } { page := { handle := 0 } } rfl⟩

/-- C7: every dated daily folder in the repository contains exactly one
documentation file (a Markdown doc) alongside zero or more example/exercise
files. -/
theorem daily_folders_one_doc :
    ∀ d ∈ dailyFolders, d.docCount = 1 := by
  decide

/-- Witness for C7 at the jan-8 folder. -/
theorem daily_folders_one_doc_witness :
    DailyFolder.docCount
      { date := "jan-8",
        files := [{ name := "docs.md" }, { name := "exercises.test.tsx" }] }
      = 1 :=
  daily_folders_one_doc
    { date := "jan-8",
      files := [{ name := "docs.md" }, { name := "exercises.test.tsx" }] }
    (by decide)

/-- C8: for every age with 0 <= age < 18, `setAge(age)` throws an error with
message "You are not an adult yet!", and for every age >= 18, `setAge(age)`
does not throw and returns the string "Your age is " followed by the decimal
rendering of age. -/
theorem setAge_spec (age : Int) :
    (0 ≤ age → age < 18 →
      setAge age = Except.error "You are not an adult yet!") ∧
    (18 ≤ age → setAge age = Except.ok ("Your age is " ++ toString age)) := by
  unfold setAge
  constructor
  · intro h0 h18
    rw [if_neg (by omega), if_pos h18]
  · intro h
    rw [if_neg (by omega), if_neg (by omega)]

/-- Witness for C8 at ages 15 and 20. -/
theorem setAge_spec_witness :
    setAge 15 = Except.error "You are not an adult yet!" ∧
    setAge 20 = Except.ok ("Your age is " ++ toString (20 : Int)) :=
  ⟨(setAge_spec 15).1 (by decide) (by decide),
   (setAge_spec 20).2 (by decide)⟩

/-- C9: for every credentials record {username, password} and every function
`loginApi`, `performLogin(credentials, loginApi)` calls `loginApi` exactly
once, with first argument `credentials.username` and second argument
`credentials.password`, and returns nothing else: its result is exactly the
callback's own effect, and running it with the recording callback on an
empty log records exactly the one expected call. -/
theorem performLogin_calls (c : Credentials)
    (loginApi : String → String → List ApiCall → List ApiCall)
    (log : List ApiCall) :
    performLogin c loginApi log = loginApi c.username c.password log ∧
    performLogin c recordingApi [] = [(c.username, c.password)] :=
  ⟨rfl, rfl⟩

/-- C10: for every id, `fetchUser(id)` resolves with the record
{id, name: "Jason"} if and only if id equals 1, and otherwise rejects with
an error whose message is "User not found". -/
theorem fetchUser_spec (id : Int) :
    (fetchUser id = Except.ok { id := id, name := "Jason" } ↔ id = 1) ∧
    (id ≠ 1 → fetchUser id = Except.error "User not found") := by
  unfold fetchUser
  constructor
  · constructor
    · intro h
      by_contra hne
      rw [if_neg hne] at h
      exact Except.noConfusion h
    · intro h
      rw [if_pos h]
  · intro h
    rw [if_neg h]

/-- Witness for C10 at ids 1 and 2. -/
theorem fetchUser_spec_witness :
    fetchUser 1 = Except.ok { id := 1, name := "Jason" } ∧
    fetchUser 2 = Except.error "User not found" :=
  ⟨(fetchUser_spec 1).1.mpr rfl, (fetchUser_spec 2).2 (by decide)⟩

end QaPortfolio
